import Mathlib

/-!
Shallow embedding of `azurerm/internal/services/maps/maps_account_resource.go`
(the Azure Maps Account resource of the terraform-provider-azurerm repository).

The file implements the CRUD handlers `resourceMapsAccountCreateUpdate`,
`resourceMapsAccountRead` and `resourceMapsAccountDelete`.  All remote calls go
through an external SDK client; here the remote side is an abstract environment
`Env` whose responses may depend on the history of remote calls made so far
(the `List RemoteCall` argument), so sequential scenarios such as
create-then-read or delete-then-delete are expressible.  Each handler returns,
besides the Go error value, the updated Terraform resource data and the trace
of remote calls it issued, which lets us state that a given invocation performs
or does not perform a given remote operation.
-/

namespace MapsAccount

/-- `maps.Sku` from the Azure SDK: only the `Name` field is used by the
resource file. -/
structure Sku where
  name : String
deriving DecidableEq, Repr

/-- The subset of `maps.Properties` used by the resource file (`UniqueID` is a
`*string` in the SDK, hence `Option String`). -/
structure AccountProperties where
  uniqueID : Option String
deriving DecidableEq, Repr

/-- The subset of `maps.Account` used by the resource file.  Pointer-typed SDK
fields become `Option`. -/
structure Account where
  id : Option String := none
  location : Option String := none
  sku : Option Sku := none
  properties : Option AccountProperties := none
  tags : Option (List (String × String)) := none
deriving DecidableEq, Repr

/-- Result of `client.Get`: the Go call returns a `maps.Account` together with
an `error`; `wasNotFound` embeds `utils.ResponseWasNotFound(resp.Response)`,
i.e. whether the HTTP response attached to the account had status 404. -/
structure GetResponse where
  account : Account
  err : Option String
  wasNotFound : Bool
deriving DecidableEq, Repr

/-- Result of `client.ListKeys`: the two key fields are `*string` in the SDK. -/
structure KeysResponse where
  primaryKey : Option String
  secondaryKey : Option String
  err : Option String
deriving DecidableEq, Repr

/-- Result of `parse.AccountID`: the (resource group, name) pair encoded in the
compound identifier string. -/
structure AccountId where
  resourceGroup : String
  name : String
deriving DecidableEq, Repr

/-- One remote call issued by a handler, with the arguments it passed. -/
inductive RemoteCall where
  | get (resourceGroup name : String)
  | createOrUpdate (resourceGroup name : String) (parameters : Account)
  | listKeys (resourceGroup name : String)
  | delete (resourceGroup name : String)
deriving DecidableEq, Repr

/-- The abstract remote world: the SDK client operations plus the external
identifier codec.  Every client operation receives the trace of remote calls
already made in the current scenario, so its response may depend on history
(e.g. a Get after a CreateOrUpdate may see the created resource). -/
structure Env where
  get : List RemoteCall → String → String → GetResponse
  createOrUpdate : List RemoteCall → String → String → Account → Option String
  listKeys : List RemoteCall → String → String → KeysResponse
  delete : List RemoteCall → String → String → Option String
  parseAccountID : String → Except String AccountId

/-- The Terraform `*pluginsdk.ResourceData` as used by this resource: the
compound identifier, the four configured schema fields, the three computed
schema fields, the new-resource flag, and a log of the schema fields written by
`d.Set` (in call order) so that "populates field F" is statable. -/
structure ResourceData where
  id : String
  name : String
  resource_group_name : String
  sku_name : String
  tags : List (String × String)
  x_ms_client_id : Option String := none
  primary_access_key : Option String := none
  secondary_access_key : Option String := none
  isNewResource : Bool
  setLog : List String := []
deriving DecidableEq, Repr

/-- `d.SetId(v)` — updates the identifier; not a schema-field `d.Set`, so it is
not logged in `setLog`. -/
def setId (d : ResourceData) (v : String) : ResourceData :=
  { d with id := v }

/-- `d.Set("name", v)` on line 154. -/
def setName (d : ResourceData) (v : String) : ResourceData :=
  { d with name := v, setLog := d.setLog ++ ["name"] }

/-- `d.Set("resource_group_name", v)` on line 155. -/
def setResourceGroupName (d : ResourceData) (v : String) : ResourceData :=
  { d with resource_group_name := v, setLog := d.setLog ++ ["resource_group_name"] }

/-- `d.Set("sku_name", v)` on line 157. -/
def setSkuName (d : ResourceData) (v : String) : ResourceData :=
  { d with sku_name := v, setLog := d.setLog ++ ["sku_name"] }

/-- `d.Set("x_ms_client_id", v)` on line 160 (`v` is the SDK `*string`). -/
def setXMsClientId (d : ResourceData) (v : Option String) : ResourceData :=
  { d with x_ms_client_id := v, setLog := d.setLog ++ ["x_ms_client_id"] }

/-- `d.Set("primary_access_key", v)` on line 167. -/
def setPrimaryAccessKey (d : ResourceData) (v : Option String) : ResourceData :=
  { d with primary_access_key := v, setLog := d.setLog ++ ["primary_access_key"] }

/-- `d.Set("secondary_access_key", v)` on line 168. -/
def setSecondaryAccessKey (d : ResourceData) (v : Option String) : ResourceData :=
  { d with secondary_access_key := v, setLog := d.setLog ++ ["secondary_access_key"] }

/-- Modelled from the spec: the helper `tags.Expand` (shared tags package, not
under src/) turns the configured tag map into "the provider's tag
representation"; the spec treats this as an opaque injection of the same
key-value pairs, so it is embedded as that injection. -/
def tagsExpand (t : List (String × String)) : List (String × String) := t

/-- Modelled from the spec: the helper `tags.FlattenAndSet` (shared tags
package, not under src/) "flattens the provider's tag representation into the
local tag mapping" via `d.Set("tags", ...)` and reports success. -/
def tagsFlattenAndSet (d : ResourceData) (t : Option (List (String × String))) : ResourceData :=
  { d with tags := (t.getD []), setLog := d.setLog ++ ["tags"] }

/-- The Go `error` values produced by the three handlers, one constructor per
distinct `return`-with-error site.  `importAsExists` embeds
`tf.ImportAsExistsError(resourceType, id)`; `parseFailure` is the error
returned verbatim from `parse.AccountID`. -/
inductive HandlerError where
  | probeFailure (name resourceGroup e : String)
  | importAsExists (resourceType existingId : String)
  | createUpdateFailure (name resourceGroup e : String)
  | retrieveFailure (name resourceGroup e : String)
  | cannotReadId (name resourceGroup : String)
  | parseFailure (e : String)
  | readFailure (name resourceGroup e : String)
  | listKeysFailure (name resourceGroup e : String)
  | deleteFailure (name resourceGroup e : String)
deriving DecidableEq, Repr

/-- Outcome of one handler invocation: the returned Go error (`none` =
success), the resource data after the invocation, and the full trace of remote
calls (including the `tr` prefix the invocation started from). -/
structure HandlerResult where
  err : Option HandlerError
  d : ResourceData
  calls : List RemoteCall
deriving DecidableEq, Repr

/-- Lines 95-106 of `resourceMapsAccountCreateUpdate`, given the probe
response `gr`: the early-return error of the existence probe, if any.
Mirrors: if the probe erred and the response was not 404, fail with the probe
error; otherwise, if the returned account has a non-nil, non-empty ID, fail
with the import-as-exists error; otherwise continue. -/
def probeOutcome (name resGroup : String) (gr : GetResponse) : Option HandlerError :=
  let idCheck : Option HandlerError :=
    match gr.account.id with
    | some s => if s ≠ "" then some (HandlerError.importAsExists "azurerm_maps_account" s) else none
    | none => none
  match gr.err with
  | some e => if gr.wasNotFound then idCheck else some (HandlerError.probeFailure name resGroup e)
  | none => idCheck

/-- Lines 108-114: the desired-state payload submitted to CreateOrUpdate —
fixed "global" location, the configured sku name, the expanded tags. -/
def mapsAccountParameters (sku : String) (t : List (String × String)) : Account :=
  { location := some "global"
    sku := some { name := sku }
    tags := some (tagsExpand t) }

/-- `resourceMapsAccountRead` (lines 134-171), started with call history `tr`:
parse the identifier (fail verbatim on parse error); Get the account (on a 404
clear the identifier and succeed, on any other error fail); set name, resource
group, sku name (if the response has a sku) and client id (if the response has
properties); ListKeys (fail on error); set the two access keys; flatten the
response tags into the tag field. -/
def resourceMapsAccountReadCore (env : Env) (d : ResourceData) (tr : List RemoteCall) :
    HandlerResult :=
  match env.parseAccountID d.id with
  | Except.error e => { err := some (HandlerError.parseFailure e), d := d, calls := tr }
  | Except.ok aid =>
    let resp := env.get tr aid.resourceGroup aid.name
    let tr1 := tr ++ [RemoteCall.get aid.resourceGroup aid.name]
    match resp.err with
    | some e =>
      if resp.wasNotFound then
        { err := none, d := setId d "", calls := tr1 }
      else
        { err := some (HandlerError.readFailure aid.name aid.resourceGroup e), d := d, calls := tr1 }
    | none =>
      let d1 := setName d aid.name
      let d2 := setResourceGroupName d1 aid.resourceGroup
      let d3 := match resp.account.sku with
        | some sku => setSkuName d2 sku.name
        | none => d2
      let d4 := match resp.account.properties with
        | some props => setXMsClientId d3 props.uniqueID
        | none => d3
      let keysResp := env.listKeys tr1 aid.resourceGroup aid.name
      let tr2 := tr1 ++ [RemoteCall.listKeys aid.resourceGroup aid.name]
      match keysResp.err with
      | some e =>
        { err := some (HandlerError.listKeysFailure aid.name aid.resourceGroup e), d := d4
          calls := tr2 }
      | none =>
        let d5 := setPrimaryAccessKey d4 keysResp.primaryKey
        let d6 := setSecondaryAccessKey d5 keysResp.secondaryKey
        let d7 := tagsFlattenAndSet d6 resp.account.tags
        { err := none, d := d7, calls := tr2 }

/-- `resourceMapsAccountRead` as invoked by the host (fresh call history). -/
def resourceMapsAccountRead (env : Env) (d : ResourceData) : HandlerResult :=
  resourceMapsAccountReadCore env d []

/-- Lines 108-131 of `resourceMapsAccountCreateUpdate` (the part after the
existence probe), started with call history `tr`: build the payload,
CreateOrUpdate (fail on error), follow-up Get (fail on error), fail if the
returned account has a nil ID, otherwise SetId and delegate to the Read
handler. -/
def createUpdateAfterProbe (env : Env) (d : ResourceData) (tr : List RemoteCall) :
    HandlerResult :=
  let name := d.name
  let resGroup := d.resource_group_name
  let parameters := mapsAccountParameters d.sku_name d.tags
  let trW := tr ++ [RemoteCall.createOrUpdate resGroup name parameters]
  match env.createOrUpdate tr resGroup name parameters with
  | some e =>
    { err := some (HandlerError.createUpdateFailure name resGroup e), d := d, calls := trW }
  | none =>
    let read := env.get trW resGroup name
    let tr2 := trW ++ [RemoteCall.get resGroup name]
    match read.err with
    | some e =>
      { err := some (HandlerError.retrieveFailure name resGroup e), d := d, calls := tr2 }
    | none =>
      match read.account.id with
      | none => { err := some (HandlerError.cannotReadId name resGroup), d := d, calls := tr2 }
      | some rid => resourceMapsAccountReadCore env (setId d rid) tr2

/-- `resourceMapsAccountCreateUpdate` (lines 83-132), started with call
history `tr`: if this is a new resource run the existence probe of
`probeOutcome` (early-returning its error, if any), then continue with
`createUpdateAfterProbe`. -/
def resourceMapsAccountCreateUpdateCore (env : Env) (d : ResourceData)
    (tr : List RemoteCall) : HandlerResult :=
  let name := d.name
  let resGroup := d.resource_group_name
  let probeCalls := if d.isNewResource then [RemoteCall.get resGroup name] else []
  let probeErr : Option HandlerError :=
    if d.isNewResource then probeOutcome name resGroup (env.get tr resGroup name) else none
  match probeErr with
  | some e => { err := some e, d := d, calls := tr ++ probeCalls }
  | none => createUpdateAfterProbe env d (tr ++ probeCalls)

/-- `resourceMapsAccountCreateUpdate` as invoked by the host. -/
def resourceMapsAccountCreateUpdate (env : Env) (d : ResourceData) : HandlerResult :=
  resourceMapsAccountCreateUpdateCore env d []

/-- `resourceMapsAccountDelete` (lines 173-188), started with call history
`tr`: parse the identifier (fail verbatim on parse error); Delete (fail on
error); otherwise succeed unconditionally. -/
def resourceMapsAccountDeleteCore (env : Env) (d : ResourceData) (tr : List RemoteCall) :
    HandlerResult :=
  match env.parseAccountID d.id with
  | Except.error e => { err := some (HandlerError.parseFailure e), d := d, calls := tr }
  | Except.ok aid =>
    let tr1 := tr ++ [RemoteCall.delete aid.resourceGroup aid.name]
    match env.delete tr aid.resourceGroup aid.name with
    | some e =>
      { err := some (HandlerError.deleteFailure aid.name aid.resourceGroup e), d := d
        calls := tr1 }
    | none => { err := none, d := d, calls := tr1 }

/-- `resourceMapsAccountDelete` as invoked by the host. -/
def resourceMapsAccountDelete (env : Env) (d : ResourceData) : HandlerResult :=
  resourceMapsAccountDeleteCore env d []

/-- The `sku_name` values accepted by the schema (lines 54-58):
`maps.NameS0`, `maps.NameS1`, `maps.NameG2`. -/
def validSkuNames : List String := ["S0", "S1", "G2"]

/-- The schema fields marked `Computed: true` (lines 63-78). -/
def computedFieldNames : List String :=
  ["x_ms_client_id", "primary_access_key", "secondary_access_key"]

/-- The remote calls of the probe section of a create/update invocation. -/
def probeTrace (d : ResourceData) : List RemoteCall :=
  if d.isNewResource then [RemoteCall.get d.resource_group_name d.name] else []

/-- The remote calls of a create/update invocation up to and including the
CreateOrUpdate write. -/
def writeTrace (d : ResourceData) : List RemoteCall :=
  probeTrace d ++ [RemoteCall.createOrUpdate d.resource_group_name d.name
    (mapsAccountParameters d.sku_name d.tags)]

/-- The existence probe of a create/update invocation does not early-return:
either this is not a new resource, or the probe outcome on the probe response
is clean. -/
def probePassed (env : Env) (d : ResourceData) : Prop :=
  d.isNewResource = false ∨
    probeOutcome d.name d.resource_group_name
      (env.get [] d.resource_group_name d.name) = none

/-- The create/update error exits that happen before `d.SetId` (probe failure,
import-as-exists, write failure, follow-up read failure, nil ID). -/
def createUpdateEarlyExit : HandlerError → Bool
  | HandlerError.probeFailure _ _ _ => true
  | HandlerError.importAsExists _ _ => true
  | HandlerError.createUpdateFailure _ _ _ => true
  | HandlerError.retrieveFailure _ _ _ => true
  | HandlerError.cannotReadId _ _ => true
  | _ => false

/-- An environment whose client operations ignore history: every Get returns
`g`, every CreateOrUpdate returns `cou`, every ListKeys returns `k`, every
Delete returns `del`, and the identifier codec is `p`.  Used to instantiate
concrete scenarios. -/
def constEnv (g : GetResponse) (cou : Option String) (k : KeysResponse)
    (del : Option String) (p : Except String AccountId) : Env where
  get := fun _ _ _ => g
  createOrUpdate := fun _ _ _ _ => cou
  listKeys := fun _ _ _ => k
  delete := fun _ _ _ => del
  parseAccountID := fun _ => p

/-- A resource data record holding the example configuration of the spec
(name "mymaps", resource group "rg1", sku "S0"). -/
def exampleData (isNew : Bool) : ResourceData where
  id := "exampleid"
  name := "mymaps"
  resource_group_name := "rg1"
  sku_name := "S0"
  tags := [("env", "test")]
  isNewResource := isNew

/-- A Get response representing an absent resource: the call errs, the
response was a 404, and the account carries no ID. -/
def notFoundGet : GetResponse where
  account := {}
  err := some "404"
  wasNotFound := true

/-- A ListKeys response carrying two keys. -/
def okKeys : KeysResponse where
  primaryKey := some "pk1"
  secondaryKey := some "sk1"
  err := none

/-- A remote whose Get succeeds but returns an account with no ID (and whose
other operations succeed), with the identifier codec accepting everything as
("rg1", "mymaps"). -/
def absentRemote : Env :=
  constEnv ⟨{}, none, false⟩ none okKeys none (Except.ok ⟨"rg1", "mymaps"⟩)

/-- A remote whose Get always returns an existing account with ID "newid" and
sku "S0", with the identifier codec accepting everything as
("rg1", "mymaps"). -/
def existingRemote : Env :=
  constEnv ⟨{ id := some "newid", sku := some ⟨"S0"⟩ }, none, false⟩ none okKeys none
    (Except.ok ⟨"rg1", "mymaps"⟩)

/-- A remote whose Get returns a fully populated account (ID, sku, and a
properties block carrying a client ID). -/
def fullRemote : Env :=
  constEnv ⟨{ id := some "newid", sku := some ⟨"S0"⟩, properties := some ⟨some "client-1"⟩ },
      none, false⟩ none okKeys none (Except.ok ⟨"rg1", "mymaps"⟩)

/-- A remote whose Get always reports 404. -/
def goneRemote : Env :=
  constEnv notFoundGet none okKeys none (Except.ok ⟨"rg1", "mymaps"⟩)

/-- A stateful-looking remote for the create-then-read scenario: the very
first Get (empty history) reports 404, every later Get returns the created
account with ID "newid", sku "S0" and a client ID; CreateOrUpdate, ListKeys
and Delete always succeed; the codec parses exactly "newid", as
("rg1", "mymaps"). -/
def lifecycleRemote : Env where
  get := fun tr _ _ =>
    if tr = [] then notFoundGet
    else ⟨{ id := some "newid", sku := some ⟨"S0"⟩, properties := some ⟨some "client-1"⟩ },
      none, false⟩
  createOrUpdate := fun _ _ _ _ => none
  listKeys := fun _ _ _ => okKeys
  delete := fun _ _ _ => none
  parseAccountID := fun s =>
    if s = "newid" then Except.ok ⟨"rg1", "mymaps"⟩ else Except.error "unrecognized id"

/-- C1: on a new-resource create whose existence probe succeeds and returns an
account with a non-empty identifier, the handler returns the import-as-exists
error and issues no CreateOrUpdate call (its only remote call is the probe
Get). -/
theorem c1_existing_resource_blocks_write (env : Env) (d : ResourceData) (s : String)
    (hnew : d.isNewResource = true)
    (hget : (env.get [] d.resource_group_name d.name).err = none)
    (hid : (env.get [] d.resource_group_name d.name).account.id = some s)
    (hne : s ≠ "") :
    (resourceMapsAccountCreateUpdate env d).err
        = some (HandlerError.importAsExists "azurerm_maps_account" s)
      ∧ (resourceMapsAccountCreateUpdate env d).calls
        = [RemoteCall.get d.resource_group_name d.name] := by
  simp [resourceMapsAccountCreateUpdate, resourceMapsAccountCreateUpdateCore,
        probeOutcome, hnew, hget, hid, hne]

/-- Witness for C1: a concrete probe that finds an existing account with ID
"existing-id" makes the create fail with import-as-exists and no write. -/
theorem c1_existing_resource_blocks_write_witness :
    (resourceMapsAccountCreateUpdate
        (constEnv ⟨{ id := some "existing-id" }, none, false⟩ none okKeys none
          (Except.error "unused"))
        (exampleData true)).err
        = some (HandlerError.importAsExists "azurerm_maps_account" "existing-id")
      ∧ (resourceMapsAccountCreateUpdate
        (constEnv ⟨{ id := some "existing-id" }, none, false⟩ none okKeys none
          (Except.error "unused"))
        (exampleData true)).calls = [RemoteCall.get "rg1" "mymaps"] := by
  have h := c1_existing_resource_blocks_write
    (constEnv ⟨{ id := some "existing-id" }, none, false⟩ none okKeys none
      (Except.error "unused"))
    (exampleData true) "existing-id" rfl rfl rfl (by decide)
  simpa [exampleData] using h

/-- C2: on a read whose identifier parses, if the Get errs and the response
was a 404 the handler clears the identifier and succeeds; if the Get errs
otherwise the handler returns that error (wrapped as the read failure). -/
theorem c2_read_not_found_clears_id (env : Env) (d : ResourceData) (aid : AccountId)
    (e : String)
    (hpar : env.parseAccountID d.id = Except.ok aid)
    (herr : (env.get [] aid.resourceGroup aid.name).err = some e) :
    ((env.get [] aid.resourceGroup aid.name).wasNotFound = true →
        (resourceMapsAccountRead env d).err = none
          ∧ (resourceMapsAccountRead env d).d.id = "")
      ∧ ((env.get [] aid.resourceGroup aid.name).wasNotFound = false →
        (resourceMapsAccountRead env d).err
          = some (HandlerError.readFailure aid.name aid.resourceGroup e)) := by
  constructor <;> intro h <;>
    simp [resourceMapsAccountRead, resourceMapsAccountReadCore, hpar, herr, h, setId]

/-- Witness for C2: reading the example resource against a remote that
reports 404 clears the identifier and succeeds. -/
theorem c2_read_not_found_clears_id_witness :
    (resourceMapsAccountRead
        (constEnv notFoundGet none okKeys none (Except.ok ⟨"rg1", "mymaps"⟩))
        (exampleData false)).err = none
      ∧ (resourceMapsAccountRead
        (constEnv notFoundGet none okKeys none (Except.ok ⟨"rg1", "mymaps"⟩))
        (exampleData false)).d.id = "" :=
  (c2_read_not_found_clears_id
      (constEnv notFoundGet none okKeys none (Except.ok ⟨"rg1", "mymaps"⟩))
      (exampleData false) ⟨"rg1", "mymaps"⟩ "404" rfl rfl).1 rfl

/-- C6: on a read or delete whose stored identifier fails to parse, the
handler returns the parse error verbatim, issues no remote call, and leaves
the resource data unchanged. -/
theorem c6_parse_failure_is_immediate (env : Env) (d : ResourceData) (e : String)
    (hpar : env.parseAccountID d.id = Except.error e) :
    (resourceMapsAccountRead env d).err = some (HandlerError.parseFailure e)
      ∧ (resourceMapsAccountRead env d).calls = []
      ∧ (resourceMapsAccountRead env d).d = d
      ∧ (resourceMapsAccountDelete env d).err = some (HandlerError.parseFailure e)
      ∧ (resourceMapsAccountDelete env d).calls = []
      ∧ (resourceMapsAccountDelete env d).d = d := by
  simp [resourceMapsAccountRead, resourceMapsAccountReadCore,
        resourceMapsAccountDelete, resourceMapsAccountDeleteCore, hpar]

/-- Witness for C6: with an identifier the codec rejects, read and delete
both return the parse error and make no remote call. -/
theorem c6_parse_failure_is_immediate_witness :
    (resourceMapsAccountRead
        (constEnv notFoundGet none okKeys none (Except.error "parse failed"))
        (exampleData false)).err = some (HandlerError.parseFailure "parse failed")
      ∧ (resourceMapsAccountDelete
        (constEnv notFoundGet none okKeys none (Except.error "parse failed"))
        (exampleData false)).calls = [] := by
  have h := c6_parse_failure_is_immediate
    (constEnv notFoundGet none okKeys none (Except.error "parse failed"))
    (exampleData false) "parse failed" rfl
  exact ⟨h.1, h.2.2.2.2.1⟩

/-- C7: on a delete whose identifier parses and whose underlying Delete call
does not err, the handler succeeds; its only remote call is the Delete (no
existence check); and a second delete invocation on the resulting data
succeeds as well. -/
theorem c7_delete_idempotent (env : Env) (d : ResourceData) (aid : AccountId)
    (hpar : env.parseAccountID d.id = Except.ok aid)
    (hdel : env.delete [] aid.resourceGroup aid.name = none) :
    (resourceMapsAccountDelete env d).err = none
      ∧ (resourceMapsAccountDelete env d).calls
        = [RemoteCall.delete aid.resourceGroup aid.name]
      ∧ (resourceMapsAccountDelete env (resourceMapsAccountDelete env d).d).err = none := by
  simp [resourceMapsAccountDelete, resourceMapsAccountDeleteCore, hpar, hdel]

/-- Witness for C7: deleting the example resource twice against a remote
whose Delete never errs succeeds both times with a single Delete call each. -/
theorem c7_delete_idempotent_witness :
    (resourceMapsAccountDelete
        (constEnv notFoundGet none okKeys none (Except.ok ⟨"rg1", "mymaps"⟩))
        (exampleData false)).err = none
      ∧ (resourceMapsAccountDelete
          (constEnv notFoundGet none okKeys none (Except.ok ⟨"rg1", "mymaps"⟩))
          ((resourceMapsAccountDelete
            (constEnv notFoundGet none okKeys none (Except.ok ⟨"rg1", "mymaps"⟩))
            (exampleData false)).d)).err = none := by
  have h := c7_delete_idempotent
    (constEnv notFoundGet none okKeys none (Except.ok ⟨"rg1", "mymaps"⟩))
    (exampleData false) ⟨"rg1", "mymaps"⟩ rfl rfl
  exact ⟨h.1, h.2.2⟩

/-- Every error the Read handler can return (parse failure, read failure,
list-keys failure) is distinct from the pre-SetId error exits of the
create/update handler. -/
theorem readCore_err_early_false (env : Env) (d : ResourceData) (tr : List RemoteCall) :
    ∀ e, (resourceMapsAccountReadCore env d tr).err = some e →
      createUpdateEarlyExit e = false := by
  intro e he
  rcases hp : env.parseAccountID d.id with pe | aid
  · simp [resourceMapsAccountReadCore, hp] at he
    subst he
    rfl
  · rcases hg : (env.get tr aid.resourceGroup aid.name).err with _ | ge
    · rcases hk : (env.listKeys (tr ++ [RemoteCall.get aid.resourceGroup aid.name])
          aid.resourceGroup aid.name).err with _ | ke
      · simp [resourceMapsAccountReadCore, hp, hg, hk] at he
      · simp [resourceMapsAccountReadCore, hp, hg, hk] at he
        subst he
        rfl
    · by_cases hn : (env.get tr aid.resourceGroup aid.name).wasNotFound
      · simp [resourceMapsAccountReadCore, hp, hg, hn] at he
      · simp [resourceMapsAccountReadCore, hp, hg, hn] at he
        subst he
        rfl

/-- The Read handler only appends to the call history it starts from. -/
theorem readCore_calls_extend (env : Env) (d : ResourceData) (tr : List RemoteCall) :
    ∃ suf, (resourceMapsAccountReadCore env d tr).calls = tr ++ suf := by
  rcases hp : env.parseAccountID d.id with pe | aid
  · exact ⟨[], by simp [resourceMapsAccountReadCore, hp]⟩
  · rcases hg : (env.get tr aid.resourceGroup aid.name).err with _ | ge
    · rcases hk : (env.listKeys (tr ++ [RemoteCall.get aid.resourceGroup aid.name])
          aid.resourceGroup aid.name).err with _ | ke
      · exact ⟨[RemoteCall.get aid.resourceGroup aid.name,
          RemoteCall.listKeys aid.resourceGroup aid.name],
          by simp [resourceMapsAccountReadCore, hp, hg, hk]⟩
      · exact ⟨[RemoteCall.get aid.resourceGroup aid.name,
          RemoteCall.listKeys aid.resourceGroup aid.name],
          by simp [resourceMapsAccountReadCore, hp, hg, hk]⟩
    · by_cases hn : (env.get tr aid.resourceGroup aid.name).wasNotFound
      · exact ⟨[RemoteCall.get aid.resourceGroup aid.name],
          by simp [resourceMapsAccountReadCore, hp, hg, hn]⟩
      · exact ⟨[RemoteCall.get aid.resourceGroup aid.name],
          by simp [resourceMapsAccountReadCore, hp, hg, hn]⟩

/-- When the existence probe does not early-return, a create/update
invocation is the post-probe stage started after the probe calls. -/
theorem createUpdate_probe_passed (env : Env) (d : ResourceData)
    (hprobe : probePassed env d) :
    resourceMapsAccountCreateUpdate env d = createUpdateAfterProbe env d (probeTrace d) := by
  rcases hprobe with h | h <;>
    simp [resourceMapsAccountCreateUpdate, resourceMapsAccountCreateUpdateCore,
      probeTrace, h]

/-- C4: when the probe does not early-return, the CreateOrUpdate call reports
success, and the follow-up Get succeeds but returns an account with a nil ID,
the create/update handler fails with the cannot-read-ID error, and its remote
activity stops at that follow-up Get (no retry). -/
theorem c4_nil_id_after_write_is_fatal (env : Env) (d : ResourceData)
    (hprobe : probePassed env d)
    (hcou : env.createOrUpdate (probeTrace d) d.resource_group_name d.name
        (mapsAccountParameters d.sku_name d.tags) = none)
    (hread : (env.get (writeTrace d) d.resource_group_name d.name).err = none)
    (hid : (env.get (writeTrace d) d.resource_group_name d.name).account.id = none) :
    (resourceMapsAccountCreateUpdate env d).err
        = some (HandlerError.cannotReadId d.name d.resource_group_name)
      ∧ (resourceMapsAccountCreateUpdate env d).calls
        = writeTrace d ++ [RemoteCall.get d.resource_group_name d.name] := by
  rw [createUpdate_probe_passed env d hprobe]
  rw [writeTrace] at hread hid
  simp [createUpdateAfterProbe, hcou, hread, hid, writeTrace]

/-- Witness for C4: against a remote whose Get always succeeds with an
ID-less account and whose CreateOrUpdate succeeds, updating the example
resource fails with the cannot-read-ID error after Get-write-Get. -/
theorem c4_nil_id_after_write_is_fatal_witness :
    (resourceMapsAccountCreateUpdate
        (constEnv ⟨{}, none, false⟩ none okKeys none (Except.error "unused"))
        (exampleData false)).err = some (HandlerError.cannotReadId "mymaps" "rg1") := by
  have h := c4_nil_id_after_write_is_fatal
    (constEnv ⟨{}, none, false⟩ none okKeys none (Except.error "unused"))
    (exampleData false) (Or.inl rfl) rfl rfl rfl
  simpa [exampleData] using h.1

/-- C5: when the probe does not early-return, the create/update handler
issues a CreateOrUpdate whose payload fixes location to "global", takes the
sku name from the sku_name input, and carries the expanded tags input; and if
that call errs, the handler returns the create/update failure carrying that
error. -/
theorem c5_payload_shape_and_write_failure (env : Env) (d : ResourceData)
    (hprobe : probePassed env d) :
    (mapsAccountParameters d.sku_name d.tags).location = some "global"
      ∧ (mapsAccountParameters d.sku_name d.tags).sku = some { name := d.sku_name }
      ∧ (mapsAccountParameters d.sku_name d.tags).tags = some (tagsExpand d.tags)
      ∧ RemoteCall.createOrUpdate d.resource_group_name d.name
          (mapsAccountParameters d.sku_name d.tags)
          ∈ (resourceMapsAccountCreateUpdate env d).calls
      ∧ (∀ e, env.createOrUpdate (probeTrace d) d.resource_group_name d.name
            (mapsAccountParameters d.sku_name d.tags) = some e →
          (resourceMapsAccountCreateUpdate env d).err
            = some (HandlerError.createUpdateFailure d.name d.resource_group_name e)) := by
  rw [createUpdate_probe_passed env d hprobe]
  refine ⟨rfl, rfl, rfl, ?_, ?_⟩
  · rcases hc : env.createOrUpdate (probeTrace d) d.resource_group_name d.name
        (mapsAccountParameters d.sku_name d.tags) with _ | e
    · rcases hg : (env.get (writeTrace d) d.resource_group_name d.name).err with _ | ge
      · rcases hi : (env.get (writeTrace d) d.resource_group_name d.name).account.id
            with _ | rid
        · rw [writeTrace] at hg hi
          simp [createUpdateAfterProbe, hc, hg, hi]
        · rw [writeTrace] at hg hi
          obtain ⟨suf, hsuf⟩ := readCore_calls_extend env
            (setId d rid)
            (probeTrace d ++ [RemoteCall.createOrUpdate d.resource_group_name d.name
              (mapsAccountParameters d.sku_name d.tags),
              RemoteCall.get d.resource_group_name d.name])
          simp only [createUpdateAfterProbe, hc, hg, hi]
          simp only [List.append_assoc, List.cons_append, List.nil_append] at hsuf ⊢
          rw [hsuf]
          simp
      · rw [writeTrace] at hg
        simp [createUpdateAfterProbe, hc, hg]
    · simp [createUpdateAfterProbe, hc]
  · intro e he
    simp [createUpdateAfterProbe, he]

/-- Witness for C5: creating the example resource against a remote whose
probe reports 404 and whose CreateOrUpdate fails with "boom" surfaces the
create/update failure, and the submitted payload has the fixed shape. -/
theorem c5_payload_shape_and_write_failure_witness :
    (mapsAccountParameters "S0" [("env", "test")]).location = some "global"
      ∧ (resourceMapsAccountCreateUpdate
          (constEnv notFoundGet (some "boom") okKeys none (Except.error "unused"))
          (exampleData true)).err
        = some (HandlerError.createUpdateFailure "mymaps" "rg1" "boom") := by
  have h := c5_payload_shape_and_write_failure
    (constEnv notFoundGet (some "boom") okKeys none (Except.error "unused"))
    (exampleData true) (Or.inr rfl)
  exact ⟨h.1, by simpa [exampleData] using h.2.2.2.2 "boom" rfl⟩

/-- The post-probe stage always issues the CreateOrUpdate call with the fixed
payload, whatever the remote responses are. -/
theorem afterProbe_cou_mem (env : Env) (d : ResourceData) (tr : List RemoteCall) :
    RemoteCall.createOrUpdate d.resource_group_name d.name
      (mapsAccountParameters d.sku_name d.tags)
      ∈ (createUpdateAfterProbe env d tr).calls := by
  rcases hc : env.createOrUpdate tr d.resource_group_name d.name
      (mapsAccountParameters d.sku_name d.tags) with _ | e0
  · rcases hg : (env.get (tr ++ [RemoteCall.createOrUpdate d.resource_group_name d.name
        (mapsAccountParameters d.sku_name d.tags)])
        d.resource_group_name d.name).err with _ | ge
    · rcases hi : (env.get (tr ++ [RemoteCall.createOrUpdate d.resource_group_name d.name
          (mapsAccountParameters d.sku_name d.tags)])
          d.resource_group_name d.name).account.id with _ | rid
      · simp [createUpdateAfterProbe, hc, hg, hi]
      · obtain ⟨suf, hsuf⟩ := readCore_calls_extend env (setId d rid)
          (tr ++ [RemoteCall.createOrUpdate d.resource_group_name d.name
            (mapsAccountParameters d.sku_name d.tags),
            RemoteCall.get d.resource_group_name d.name])
        simp only [createUpdateAfterProbe, hc, hg, hi]
        simp only [List.append_assoc, List.cons_append, List.nil_append] at hsuf ⊢
        rw [hsuf]
        simp
    · simp [createUpdateAfterProbe, hc, hg]
  · simp [createUpdateAfterProbe, hc]

/-- The post-probe stage never returns the import-as-exists error: that error
arises only from the existence probe. -/
theorem afterProbe_err_not_import (env : Env) (d : ResourceData) (tr : List RemoteCall)
    (rt s : String) :
    (createUpdateAfterProbe env d tr).err ≠ some (HandlerError.importAsExists rt s) := by
  intro he
  rcases hc : env.createOrUpdate tr d.resource_group_name d.name
      (mapsAccountParameters d.sku_name d.tags) with _ | e0
  · rcases hg : (env.get (tr ++ [RemoteCall.createOrUpdate d.resource_group_name d.name
        (mapsAccountParameters d.sku_name d.tags)])
        d.resource_group_name d.name).err with _ | ge
    · rcases hi : (env.get (tr ++ [RemoteCall.createOrUpdate d.resource_group_name d.name
          (mapsAccountParameters d.sku_name d.tags)])
          d.resource_group_name d.name).account.id with _ | rid
      · simp [createUpdateAfterProbe, hc, hg, hi] at he
      · simp only [createUpdateAfterProbe, hc, hg, hi] at he
        have hf := readCore_err_early_false env (setId d rid) _ _ he
        simp [createUpdateEarlyExit] at hf
    · simp [createUpdateAfterProbe, hc, hg] at he
  · simp [createUpdateAfterProbe, hc] at he

/-- In the post-probe stage: every early error exit leaves the identifier
unchanged, and if the identifier changed then the CreateOrUpdate succeeded and
the follow-up Get succeeded with a non-nil ID. -/
theorem afterProbe_id_frame (env : Env) (d : ResourceData) (tr : List RemoteCall) :
    (∀ e, (createUpdateAfterProbe env d tr).err = some e →
        createUpdateEarlyExit e = true →
        (createUpdateAfterProbe env d tr).d.id = d.id)
      ∧ ((createUpdateAfterProbe env d tr).d.id ≠ d.id →
        env.createOrUpdate tr d.resource_group_name d.name
            (mapsAccountParameters d.sku_name d.tags) = none
          ∧ ∃ rid,
            (env.get (tr ++ [RemoteCall.createOrUpdate d.resource_group_name d.name
                  (mapsAccountParameters d.sku_name d.tags)])
                d.resource_group_name d.name).err = none
              ∧ (env.get (tr ++ [RemoteCall.createOrUpdate d.resource_group_name d.name
                  (mapsAccountParameters d.sku_name d.tags)])
                d.resource_group_name d.name).account.id = some rid) := by
  rcases hc : env.createOrUpdate tr d.resource_group_name d.name
      (mapsAccountParameters d.sku_name d.tags) with _ | e0
  · rcases hg : (env.get (tr ++ [RemoteCall.createOrUpdate d.resource_group_name d.name
        (mapsAccountParameters d.sku_name d.tags)])
        d.resource_group_name d.name).err with _ | ge
    · rcases hi : (env.get (tr ++ [RemoteCall.createOrUpdate d.resource_group_name d.name
          (mapsAccountParameters d.sku_name d.tags)])
          d.resource_group_name d.name).account.id with _ | rid
      · constructor
        · intro e he h2
          simp [createUpdateAfterProbe, hc, hg, hi]
        · intro hne
          exfalso
          apply hne
          simp [createUpdateAfterProbe, hc, hg, hi]
      · constructor
        · intro e he h2
          exfalso
          simp only [createUpdateAfterProbe, hc, hg, hi] at he
          have hf := readCore_err_early_false env (setId d rid) _ e he
          rw [h2] at hf
          exact Bool.noConfusion hf
        · intro _
          exact ⟨rfl, rid, rfl, rfl⟩
    · constructor
      · intro e he h2
        simp [createUpdateAfterProbe, hc, hg]
      · intro hne
        exfalso
        apply hne
        simp [createUpdateAfterProbe, hc, hg]
  · constructor
    · intro e he h2
      simp [createUpdateAfterProbe, hc]
    · intro hne
      exfalso
      apply hne
      simp [createUpdateAfterProbe, hc]

/-- C9: on a new-resource create whose probe Get succeeds, the handler
returns an import-as-exists error exactly when the probe account's ID is
non-nil and non-empty; when that ID is nil or empty the handler proceeds to
the CreateOrUpdate write. -/
theorem c9_empty_probe_id_means_absent (env : Env) (d : ResourceData)
    (hnew : d.isNewResource = true)
    (hget : (env.get [] d.resource_group_name d.name).err = none) :
    ((∃ s, (resourceMapsAccountCreateUpdate env d).err
        = some (HandlerError.importAsExists "azurerm_maps_account" s))
      ↔ (∃ s, (env.get [] d.resource_group_name d.name).account.id = some s ∧ s ≠ ""))
    ∧ ((env.get [] d.resource_group_name d.name).account.id = none
        ∨ (env.get [] d.resource_group_name d.name).account.id = some "" →
      RemoteCall.createOrUpdate d.resource_group_name d.name
        (mapsAccountParameters d.sku_name d.tags)
        ∈ (resourceMapsAccountCreateUpdate env d).calls) := by
  rcases hid : (env.get [] d.resource_group_name d.name).account.id with _ | s
  · have hpo : probeOutcome d.name d.resource_group_name
        (env.get [] d.resource_group_name d.name) = none := by
      simp [probeOutcome, hget, hid]
    rw [createUpdate_probe_passed env d (Or.inr hpo)]
    constructor
    · constructor
      · rintro ⟨s, hs⟩
        exact absurd hs (afterProbe_err_not_import env d (probeTrace d) _ s)
      · rintro ⟨s, hs, _⟩
        exact Option.noConfusion hs
    · intro _
      exact afterProbe_cou_mem env d (probeTrace d)
  · by_cases hs : s = ""
    · subst hs
      have hpo : probeOutcome d.name d.resource_group_name
          (env.get [] d.resource_group_name d.name) = none := by
        simp [probeOutcome, hget, hid]
      rw [createUpdate_probe_passed env d (Or.inr hpo)]
      constructor
      · constructor
        · rintro ⟨s2, hs2⟩
          exact absurd hs2 (afterProbe_err_not_import env d (probeTrace d) _ s2)
        · rintro ⟨s2, hs2, hneq⟩
          simp at hs2
          exact absurd hs2.symm hneq
      · intro _
        exact afterProbe_cou_mem env d (probeTrace d)
    · have hres : (resourceMapsAccountCreateUpdate env d).err
          = some (HandlerError.importAsExists "azurerm_maps_account" s) := by
        simp [resourceMapsAccountCreateUpdate, resourceMapsAccountCreateUpdateCore,
          hnew, probeOutcome, hget, hid, hs]
      constructor
      · constructor
        · intro _
          exact ⟨s, rfl, hs⟩
        · intro _
          exact ⟨s, hres⟩
      · rintro (h | h)
        · exact Option.noConfusion h
        · simp at h
          exact absurd h hs

/-- Witness for C9: with a probe that succeeds but carries no account ID, the
create proceeds to (and issues) the CreateOrUpdate write. -/
theorem c9_empty_probe_id_means_absent_witness :
    RemoteCall.createOrUpdate "rg1" "mymaps" (mapsAccountParameters "S0" [("env", "test")])
      ∈ (resourceMapsAccountCreateUpdate absentRemote (exampleData true)).calls := by
  have h := c9_empty_probe_id_means_absent absentRemote (exampleData true) rfl rfl
  exact h.2 (Or.inl rfl)

/-- C10: the create/update handler leaves the stored identifier unchanged on
each of its pre-SetId error exits (probe failure, import-as-exists, write
failure, follow-up Get failure, nil ID), and the identifier changes only
after a successful write whose follow-up Get returned a non-nil ID. -/
theorem c10_id_untouched_on_early_exit (env : Env) (d : ResourceData) :
    (∀ e, (resourceMapsAccountCreateUpdate env d).err = some e →
        createUpdateEarlyExit e = true →
        (resourceMapsAccountCreateUpdate env d).d.id = d.id)
      ∧ ((resourceMapsAccountCreateUpdate env d).d.id ≠ d.id →
        env.createOrUpdate (probeTrace d) d.resource_group_name d.name
            (mapsAccountParameters d.sku_name d.tags) = none
          ∧ ∃ rid,
            (env.get (writeTrace d) d.resource_group_name d.name).err = none
              ∧ (env.get (writeTrace d) d.resource_group_name d.name).account.id
                = some rid) := by
  rw [writeTrace]
  by_cases hn : d.isNewResource = true
  · rcases hpo : probeOutcome d.name d.resource_group_name
        (env.get [] d.resource_group_name d.name) with _ | pe
    · rw [createUpdate_probe_passed env d (Or.inr hpo)]
      exact afterProbe_id_frame env d (probeTrace d)
    · have hres : resourceMapsAccountCreateUpdate env d
          = { err := some pe, d := d
              calls := [RemoteCall.get d.resource_group_name d.name] } := by
        simp [resourceMapsAccountCreateUpdate, resourceMapsAccountCreateUpdateCore,
          hn, hpo]
      rw [hres]
      exact ⟨fun _ _ _ => rfl, fun hne => absurd rfl hne⟩
  · rw [createUpdate_probe_passed env d (Or.inl (by simpa using hn))]
    exact afterProbe_id_frame env d (probeTrace d)

/-- Witness for C10: a nil-ID-after-write run leaves the identifier at its
original value, and a run whose identifier does change had a successful write
and a follow-up Get with a non-nil ID. -/
theorem c10_id_untouched_on_early_exit_witness :
    (resourceMapsAccountCreateUpdate absentRemote (exampleData true)).d.id = "exampleid"
      ∧ (existingRemote.createOrUpdate (probeTrace (exampleData false)) "rg1" "mymaps"
          (mapsAccountParameters "S0" [("env", "test")]) = none
        ∧ ∃ rid,
          (existingRemote.get (writeTrace (exampleData false)) "rg1" "mymaps").err = none
            ∧ (existingRemote.get
                (writeTrace (exampleData false)) "rg1" "mymaps").account.id = some rid) := by
  constructor
  · exact (c10_id_untouched_on_early_exit absentRemote
      (exampleData true)).1 (HandlerError.cannotReadId "mymaps" "rg1") rfl rfl
  · exact (c10_id_untouched_on_early_exit existingRemote
      (exampleData false)).2 (by decide)

/-- Counterexample to C3 as stated: a read against a remote whose Get
succeeds (entity exists) and whose ListKeys succeeds, but whose account
carries no properties block, does not populate x_ms_client_id — so "exactly
the three computed fields" fails. -/
theorem c3_exactly_three_counterexample :
    ((absentRemote.get [] "rg1" "mymaps").err = none
        ∧ (absentRemote.listKeys [RemoteCall.get "rg1" "mymaps"] "rg1" "mymaps").err = none)
      ∧ "x_ms_client_id" ∉ (resourceMapsAccountRead absentRemote (exampleData false)).d.setLog := by
  decide

/-- C3 (amended): on a read whose identifier parses, when the Get succeeds
and its account carries a properties block and the ListKeys succeeds, the
handler populates exactly the three computed fields (x_ms_client_id,
primary_access_key, secondary_access_key); when the Get reports 404 (the
entity does not exist) it populates none of them. -/
theorem c3_computed_fields_population (env : Env) (d : ResourceData) (aid : AccountId)
    (hlog : d.setLog = [])
    (hpar : env.parseAccountID d.id = Except.ok aid) :
    ((env.get [] aid.resourceGroup aid.name).err = none →
      (∃ props, (env.get [] aid.resourceGroup aid.name).account.properties = some props) →
      (env.listKeys [RemoteCall.get aid.resourceGroup aid.name]
        aid.resourceGroup aid.name).err = none →
      (resourceMapsAccountRead env d).d.setLog.filter
        (fun f => computedFieldNames.contains f) = computedFieldNames)
    ∧ (∀ e, (env.get [] aid.resourceGroup aid.name).err = some e →
      (env.get [] aid.resourceGroup aid.name).wasNotFound = true →
      (resourceMapsAccountRead env d).d.setLog.filter
        (fun f => computedFieldNames.contains f) = []) := by
  constructor
  · rintro hget ⟨props, hprops⟩ hkeys
    rcases hsku : (env.get [] aid.resourceGroup aid.name).account.sku with _ | sku
    · simp [resourceMapsAccountRead, resourceMapsAccountReadCore, hpar, hget, hprops,
        hkeys, hsku, setName, setResourceGroupName, setSkuName, setXMsClientId,
        setPrimaryAccessKey, setSecondaryAccessKey, tagsFlattenAndSet, hlog,
        computedFieldNames]
    · simp [resourceMapsAccountRead, resourceMapsAccountReadCore, hpar, hget, hprops,
        hkeys, hsku, setName, setResourceGroupName, setSkuName, setXMsClientId,
        setPrimaryAccessKey, setSecondaryAccessKey, tagsFlattenAndSet, hlog,
        computedFieldNames]
  · intro e hget hnf
    simp [resourceMapsAccountRead, resourceMapsAccountReadCore, hpar, hget, hnf,
      setId, hlog]

/-- Witness for C3 (amended): a read against a fully populated remote
populates exactly the three computed fields, and a read against a 404 remote
populates none of them. -/
theorem c3_computed_fields_population_witness :
    (resourceMapsAccountRead fullRemote (exampleData false)).d.setLog.filter
        (fun f => computedFieldNames.contains f) = computedFieldNames
      ∧ (resourceMapsAccountRead goneRemote (exampleData false)).d.setLog.filter
        (fun f => computedFieldNames.contains f) = [] := by
  constructor
  · exact (c3_computed_fields_population fullRemote (exampleData false) ⟨"rg1", "mymaps"⟩
      rfl rfl).1 rfl ⟨⟨some "client-1"⟩, rfl⟩ rfl
  · exact (c3_computed_fields_population goneRemote (exampleData false) ⟨"rg1", "mymaps"⟩
      rfl rfl).2 "404" rfl rfl

/-- C8: for a new-resource create with a valid sku input, if the remote
behaves like the API (the probe passes, the write succeeds, the follow-up
Gets succeed and return an ID the codec parses back to the input pair and the
sku that was stored, and ListKeys succeeds), the create — which ends by
delegating to the Read handler — succeeds and yields a record whose name,
resource_group_name and sku_name equal the created inputs. -/
theorem c8_create_then_read_roundtrip (env : Env) (d : ResourceData) (rid : String)
    (_hnew : d.isNewResource = true)
    (_hvalid : d.sku_name ∈ validSkuNames)
    (hpo : probeOutcome d.name d.resource_group_name
      (env.get [] d.resource_group_name d.name) = none)
    (hcou : env.createOrUpdate (probeTrace d) d.resource_group_name d.name
      (mapsAccountParameters d.sku_name d.tags) = none)
    (hget2err : (env.get (writeTrace d) d.resource_group_name d.name).err = none)
    (hget2id : (env.get (writeTrace d) d.resource_group_name d.name).account.id = some rid)
    (hparse : env.parseAccountID rid
      = Except.ok ⟨d.resource_group_name, d.name⟩)
    (hget3err : (env.get (writeTrace d ++ [RemoteCall.get d.resource_group_name d.name])
      d.resource_group_name d.name).err = none)
    (hget3sku : (env.get (writeTrace d ++ [RemoteCall.get d.resource_group_name d.name])
      d.resource_group_name d.name).account.sku = some ⟨d.sku_name⟩)
    (hkeys : (env.listKeys (writeTrace d ++ [RemoteCall.get d.resource_group_name d.name,
        RemoteCall.get d.resource_group_name d.name])
      d.resource_group_name d.name).err = none) :
    (resourceMapsAccountCreateUpdate env d).err = none
      ∧ (resourceMapsAccountCreateUpdate env d).d.name = d.name
      ∧ (resourceMapsAccountCreateUpdate env d).d.resource_group_name = d.resource_group_name
      ∧ (resourceMapsAccountCreateUpdate env d).d.sku_name = d.sku_name := by
  rw [createUpdate_probe_passed env d (Or.inr hpo)]
  rw [writeTrace] at hget2err hget2id hget3err hget3sku hkeys
  simp only [createUpdateAfterProbe, hcou, hget2err, hget2id]
  rcases hprops : (env.get ((probeTrace d ++ [RemoteCall.createOrUpdate d.resource_group_name
        d.name (mapsAccountParameters d.sku_name d.tags)])
        ++ [RemoteCall.get d.resource_group_name d.name])
      d.resource_group_name d.name).account.properties with _ | props <;>
    simp only [List.append_assoc, List.cons_append, List.nil_append]
      at hget3err hget3sku hkeys hprops <;>
    simp [resourceMapsAccountReadCore, setId, hparse, hget3err, hget3sku, hkeys, hprops,
      setName, setResourceGroupName, setSkuName, setXMsClientId, setPrimaryAccessKey,
      setSecondaryAccessKey, tagsFlattenAndSet]

/-- Witness for C8: creating "mymaps" in "rg1" with sku "S0" against the
lifecycle remote succeeds and round-trips name, resource group and sku. -/
theorem c8_create_then_read_roundtrip_witness :
    (resourceMapsAccountCreateUpdate lifecycleRemote (exampleData true)).err = none
      ∧ (resourceMapsAccountCreateUpdate lifecycleRemote (exampleData true)).d.name = "mymaps"
      ∧ (resourceMapsAccountCreateUpdate lifecycleRemote
          (exampleData true)).d.resource_group_name = "rg1"
      ∧ (resourceMapsAccountCreateUpdate lifecycleRemote
          (exampleData true)).d.sku_name = "S0" := by
  have h := c8_create_then_read_roundtrip lifecycleRemote (exampleData true) "newid"
    rfl (by decide) (by decide) rfl (by decide) (by decide) rfl (by decide)
    (by decide) rfl
  simpa [exampleData] using h

end MapsAccount
